import Mathlib

/-!
Verification development for the `sdl-gravity-square` program
(`src/sdl-gravity-square.cc`): a fixed collection of square bodies falling
under gravity inside a 640x480 window, bouncing off the four walls.

Modelling conventions:
* C++ `double` state is modelled by exact rationals (`ℚ`); the decimal
  literals of the source (`0.5`, `0.9`, `0.995`, `0.95`) become the exact
  fractions `1/2`, `9/10`, `199/200`, `19/20`.  The spec describes the
  state as real-valued pairs, and every property below is about the
  real-number reading of the arithmetic.
* `Uint8` colour channels are modelled by `ℕ` values in `[0, 255]`.
* The process-wide Mersenne-Twister random source behind
  `get_random_int(low, high)` (an external facility: `std::mt19937` +
  `std::uniform_int_distribution`) is modelled by a stream `g : ℕ → ℕ` of
  raw draws together with an index `k` of the next unconsumed draw; the
  distribution's contract is that the produced value lies in
  `[low, high]`, realised here as `low + g k % (high - low + 1)`.
  Every function that draws randomness takes `g` and `k` and the functions
  that consume draws return the next free index, mirroring the sequential
  use of the single global generator.
* The SDL calls (`SDL_Init`, `SDL_CreateWindow`, `SDL_CreateRenderer`,
  rendering, event polling) are external collaborators; for the
  initialisation logic their success/failure outcomes are passed in as
  booleans and the control flow of `init`/`main` is translated faithfully.
-/

/-- `Vec2` from the source: a 2D rational-valued pair (models `double`). -/
structure Vec2 where
  x : ℚ
  y : ℚ
deriving DecidableEq, Repr

/-- Component-wise addition, `Vec2::operator+`. -/
def Vec2.add (a b : Vec2) : Vec2 := ⟨a.x + b.x, a.y + b.y⟩

/-- `Color` from the source: RGBA channels, each a byte value. -/
structure Color where
  red : ℕ
  green : ℕ
  blue : ℕ
  alpha : ℕ
deriving DecidableEq, Repr

/-- The default `Color{}`: opaque white `(0xff, 0xff, 0xff, 0xff)`. -/
def Color.default : Color := ⟨255, 255, 255, 255⟩

/-- `Square`: the body type, owning size, position, velocity and colour. -/
structure Square where
  size : Vec2
  position : Vec2
  velocity : Vec2
  color : Color
deriving DecidableEq, Repr

/-- `Square::setSize` (exposed by the class, unused by the driver). -/
def Square.setSize (sz : Vec2) (s : Square) : Square := { s with size := sz }

/-- `Square::setPos`. -/
def Square.setPos (p : Vec2) (s : Square) : Square := { s with position := p }

/-- `Square::setPosX`. -/
def Square.setPosX (v : ℚ) (s : Square) : Square :=
  { s with position := ⟨v, s.position.y⟩ }

/-- `Square::setPosY`. -/
def Square.setPosY (v : ℚ) (s : Square) : Square :=
  { s with position := ⟨s.position.x, v⟩ }

/-- `Square::setVelocity`. -/
def Square.setVelocity (v : Vec2) (s : Square) : Square := { s with velocity := v }

/-- `Square::setColor`. -/
def Square.setColor (c : Color) (s : Square) : Square := { s with color := c }

/-- `Square::applyGravity`: `m_velocity.y += gravity`. -/
def Square.applyGravity (gravity : ℚ) (s : Square) : Square :=
  { s with velocity := ⟨s.velocity.x, s.velocity.y + gravity⟩ }

/-- `Square::applyAirResistance`: `m_velocity.x *= air_resistance`. -/
def Square.applyAirResistance (ar : ℚ) (s : Square) : Square :=
  { s with velocity := ⟨s.velocity.x * ar, s.velocity.y⟩ }

/-- `Square::dampX`: `m_velocity.x *= -damping`. -/
def Square.dampX (damping : ℚ) (s : Square) : Square :=
  { s with velocity := ⟨s.velocity.x * (-damping), s.velocity.y⟩ }

/-- `Square::dampY`: `m_velocity.y *= -damping`. -/
def Square.dampY (damping : ℚ) (s : Square) : Square :=
  { s with velocity := ⟨s.velocity.x, s.velocity.y * (-damping)⟩ }

/-- `Square::updatePosition`: `m_position += m_velocity`, component-wise. -/
def Square.updatePosition (s : Square) : Square :=
  { s with position := ⟨s.position.x + s.velocity.x, s.position.y + s.velocity.y⟩ }

/-- `World`: the fixed physics parameters. -/
structure World where
  gravity : ℚ
  damping : ℚ
  air_resistance : ℚ
deriving DecidableEq, Repr

/-- The default-constructed `World{}`: gravity `0.5`, damping `0.9`,
air resistance `0.995`, as set once by `init` into the global `gWorld`. -/
def gWorld : World := ⟨1/2, 9/10, 199/200⟩

/-- `gScreenWidth = 640`. -/
def gScreenWidth : ℚ := 640

/-- `gScreenHeight = 480`. -/
def gScreenHeight : ℚ := 480

/-- `gNumSquares = 4`. -/
def gNumSquares : ℕ := 4

/-- `get_random_int(low, high)`: one draw from the process-wide generator.
The external `std::uniform_int_distribution` is modelled by its contract —
the result lies in `[low, high]` — computed from the raw draw `r` as
`low + r % (high - low + 1)`. -/
def get_random_int (low high : ℤ) (r : ℕ) : ℤ :=
  low + (r : ℤ) % (high - low + 1)

/-- `get_random_color`: default-construct `Color{}` (alpha stays `0xff`),
then overwrite red, green, blue with draws from `[0, 255]`; consumes the
three raw draws `g k`, `g (k+1)`, `g (k+2)`. -/
def get_random_color (g : ℕ → ℕ) (k : ℕ) : Color :=
  { red := (get_random_int 0 255 (g k)).toNat
    green := (get_random_int 0 255 (g (k + 1))).toNat
    blue := (get_random_int 0 255 (g (k + 2))).toNat
    alpha := Color.default.alpha }

/-- `get_random_velocity`: both components drawn from `[-20, 20]` and cast
to the rational (double) state; consumes raw draws `g k` and `g (k+1)`. -/
def get_random_velocity (g : ℕ → ℕ) (k : ℕ) : Vec2 :=
  ⟨(get_random_int (-20) 20 (g k) : ℚ), (get_random_int (-20) 20 (g (k + 1)) : ℚ)⟩

/-- Right-wall test of `update_squares`, evaluated on the post-integration
state: `position.x >= gScreenWidth - size.x`. -/
def onRightWall (s : Square) : Bool :=
  decide (s.position.x ≥ gScreenWidth - s.size.x)

/-- Left-wall test: `position.x <= 0`. -/
def onLeftWall (s : Square) : Bool :=
  decide (s.position.x ≤ 0)

/-- Floor test: `position.y >= gScreenHeight - size.y`. -/
def onFloor (s : Square) : Bool :=
  decide (s.position.y ≥ gScreenHeight - s.size.y)

/-- Ceiling test: `position.y <= 0`. -/
def onCeiling (s : Square) : Bool :=
  decide (s.position.y ≤ 0)

/-- The integration phase of one per-frame update: gravity, then air
resistance, then `updatePosition`, in the order of the source. -/
def integrate_phase (w : World) (s : Square) : Square :=
  (((s.applyGravity w.gravity).applyAirResistance w.air_resistance)).updatePosition

/-- The `is_on_wall` block of `update_squares`, with the two wall flags
(already evaluated) passed in: clamp left then right, `dampX`, recolour.
Returns the updated square and the next free raw-draw index. -/
def wall_step (w : World) (rwall lwall : Bool) (g : ℕ → ℕ) (k : ℕ) (s : Square) :
    Square × ℕ :=
  if rwall || lwall then
    let s1 := if lwall then s.setPosX 0 else s
    let s2 := if rwall then s1.setPosX (gScreenWidth - s1.size.x) else s1
    ((s2.dampX w.damping).setColor (get_random_color g k), k + 3)
  else (s, k)

/-- The `is_on_floor` block: clamp to the floor, then bounce (`dampY` and
recolour) when falling faster than `0.5`, else ground friction
`velocity := (velocity.x * 0.95, 0)`. -/
def floor_step (w : World) (fl : Bool) (g : ℕ → ℕ) (k : ℕ) (s : Square) :
    Square × ℕ :=
  if fl then
    let s1 := s.setPosY (gScreenHeight - s.size.y)
    if s1.velocity.y > 1/2 then
      ((s1.dampY w.damping).setColor (get_random_color g k), k + 3)
    else
      (s1.setVelocity ⟨s1.velocity.x * (19/20), 0⟩, k)
  else (s, k)

/-- The `is_on_ceiling` block: clamp to the top, `dampY`, recolour. -/
def ceiling_step (w : World) (ce : Bool) (g : ℕ → ℕ) (k : ℕ) (s : Square) :
    Square × ℕ :=
  if ce then
    (((s.setPosY 0).dampY w.damping).setColor (get_random_color g k), k + 3)
  else (s, k)

/-- The body of the `update_squares` loop for one square, translated
line-by-line from the source: gravity, air resistance, position update,
then the five boundary booleans evaluated once on the post-integration
state, then the wall block, the floor block and the ceiling block in that
order.  Returns the updated square and the next free raw-draw index. -/
def update_square (w : World) (g : ℕ → ℕ) (k : ℕ) (s : Square) : Square × ℕ :=
  let s0 := s.applyGravity w.gravity
  let s1 := s0.applyAirResistance w.air_resistance
  let s2 := s1.updatePosition
  let is_on_right_wall := decide (s2.position.x ≥ gScreenWidth - s2.size.x)
  let is_on_left_wall := decide (s2.position.x ≤ 0)
  let is_on_wall := is_on_right_wall || is_on_left_wall
  let is_on_floor := decide (s2.position.y ≥ gScreenHeight - s2.size.y)
  let is_on_ceiling := decide (s2.position.y ≤ 0)
  let wk :=
    if is_on_wall then
      let a := if is_on_left_wall then s2.setPosX 0 else s2
      let b := if is_on_right_wall then a.setPosX (gScreenWidth - a.size.x) else a
      ((b.dampX w.damping).setColor (get_random_color g k), k + 3)
    else (s2, k)
  let fk :=
    if is_on_floor then
      let a := wk.1.setPosY (gScreenHeight - wk.1.size.y)
      if a.velocity.y > 1/2 then
        ((a.dampY w.damping).setColor (get_random_color g wk.2), wk.2 + 3)
      else
        (a.setVelocity ⟨a.velocity.x * (19/20), 0⟩, wk.2)
    else wk
  if is_on_ceiling then
    (((fk.1.setPosY 0).dampY w.damping).setColor (get_random_color g fk.2), fk.2 + 3)
  else fk

/-- `update_squares`: one per-frame update over the whole collection, in
order, threading the single global random source through the bodies. -/
def update_squares (w : World) (g : ℕ → ℕ) : ℕ → List Square → List Square × ℕ
  | k, [] => ([], k)
  | k, s :: rest =>
    let sk := update_square w g k s
    let rk := update_squares w g sk.2 rest
    (sk.1 :: rk.1, rk.2)

/-- One body as built by the `init_squares` loop: size `100x100`, position
at the screen centre (`gScreenWidth / 2`, `gScreenHeight / 2`), a fresh
random velocity (raw draws `k`, `k+1`) and a fresh random colour (raw
draws `k+2 .. k+4`). -/
def make_square (g : ℕ → ℕ) (k : ℕ) : Square :=
  { size := ⟨100, 100⟩
    position := ⟨gScreenWidth / 2, gScreenHeight / 2⟩
    velocity := get_random_velocity g k
    color := get_random_color g (k + 2) }

/-- `init_squares`: push `gNumSquares` freshly constructed squares; each
iteration consumes five raw draws. -/
def init_squares (g : ℕ → ℕ) (k : ℕ) : List Square :=
  (List.range gNumSquares).map (fun i => make_square g (k + 5 * i))

/-- `reinit_squares`: delete every square of the old collection, clear it,
and run `init_squares` again — the result is a fresh collection that does
not depend on the old one. -/
def reinit_squares (_old : List Square) (g : ℕ → ℕ) (k : ℕ) : List Square :=
  init_squares g k

/-- `init`: returns `0` (failure) when `SDL_Init` fails, else `1`.  The
outcomes of `SDL_CreateWindow` and `SDL_CreateRenderer` are passed in as
`window_ok` / `renderer_ok` but the source stores the handles without
checking them, so they do not influence the result. -/
def init (sdl_ok window_ok renderer_ok : Bool) : ℤ :=
  if !sdl_ok then 0 else 1

/-- Whether `main` enters the frame loop: it does unless `init` returned
`0`. -/
def enters_frame_loop (sdl_ok window_ok renderer_ok : Bool) : Bool :=
  !(init sdl_ok window_ok renderer_ok == 0)

/-- The process exit status of `main` as a function of the SDL outcomes:
`1` when `init` fails, else `0` after a normal quit. -/
def main_exit_code (sdl_ok window_ok renderer_ok : Bool) : ℤ :=
  if init sdl_ok window_ok renderer_ok == 0 then 1 else 0

-- Shared helper lemmas -------------------------------------------------------

theorem wall_step_velocity_y (w : World) (rwall lwall : Bool) (g : ℕ → ℕ)
    (k : ℕ) (s : Square) : (wall_step w rwall lwall g k s).1.velocity.y = s.velocity.y := by
  cases rwall <;> cases lwall <;>
    simp [wall_step, Square.setPosX, Square.dampX, Square.setColor]

theorem wall_step_size (w : World) (rwall lwall : Bool) (g : ℕ → ℕ)
    (k : ℕ) (s : Square) : (wall_step w rwall lwall g k s).1.size = s.size := by
  cases rwall <;> cases lwall <;>
    simp [wall_step, Square.setPosX, Square.dampX, Square.setColor]

theorem floor_step_size (w : World) (fl : Bool) (g : ℕ → ℕ)
    (k : ℕ) (s : Square) : (floor_step w fl g k s).1.size = s.size := by
  cases fl
  · rfl
  · simp only [floor_step]
    split <;> first
      | rfl
      | (split <;> rfl)

theorem ceiling_step_size (w : World) (ce : Bool) (g : ℕ → ℕ)
    (k : ℕ) (s : Square) : (ceiling_step w ce g k s).1.size = s.size := by
  cases ce <;> simp [ceiling_step, Square.setPosY, Square.dampY, Square.setColor]

theorem ceiling_step_velocity_x (w : World) (ce : Bool) (g : ℕ → ℕ)
    (k : ℕ) (s : Square) :
    (ceiling_step w ce g k s).1.velocity.x = s.velocity.x := by
  cases ce <;> simp [ceiling_step, Square.setPosY, Square.dampY, Square.setColor]

theorem ceiling_step_position_x (w : World) (ce : Bool) (g : ℕ → ℕ)
    (k : ℕ) (s : Square) :
    (ceiling_step w ce g k s).1.position.x = s.position.x := by
  cases ce <;> simp [ceiling_step, Square.setPosY, Square.dampY, Square.setColor]

theorem ceiling_step_velocity_y_zero (w : World) (ce : Bool) (g : ℕ → ℕ)
    (k : ℕ) (s : Square) (h : s.velocity.y = 0) :
    (ceiling_step w ce g k s).1.velocity.y = 0 := by
  cases ce <;> simp [ceiling_step, Square.setPosY, Square.dampY, Square.setColor, h]

theorem wall_step_skip (w : World) (g : ℕ → ℕ) (k : ℕ) (s : Square) :
    wall_step w false false g k s = (s, k) := rfl

theorem floor_step_skip (w : World) (g : ℕ → ℕ) (k : ℕ) (s : Square) :
    floor_step w false g k s = (s, k) := rfl

theorem ceiling_step_skip (w : World) (g : ℕ → ℕ) (k : ℕ) (s : Square) :
    ceiling_step w false g k s = (s, k) := rfl

theorem floor_step_position_x (w : World) (fl : Bool) (g : ℕ → ℕ)
    (k : ℕ) (s : Square) :
    (floor_step w fl g k s).1.position.x = s.position.x := by
  cases fl
  · rfl
  · simp only [floor_step]
    split <;> first
      | rfl
      | (split <;> rfl)

theorem floor_step_friction (w : World) (g : ℕ → ℕ) (k : ℕ) (s : Square)
    (h : s.velocity.y ≤ 1/2) :
    floor_step w true g k s =
      ((s.setPosY (gScreenHeight - s.size.y)).setVelocity
        ⟨s.velocity.x * (19/20), 0⟩, k) := by
  simp only [floor_step, Square.setPosY, if_true]
  rw [if_neg (by simpa using not_lt.mpr h)]

theorem floor_step_bounce (w : World) (g : ℕ → ℕ) (k : ℕ) (s : Square)
    (h : 1/2 < s.velocity.y) :
    floor_step w true g k s =
      (((s.setPosY (gScreenHeight - s.size.y)).dampY w.damping).setColor
        (get_random_color g k), k + 3) := by
  simp only [floor_step, Square.setPosY, if_true]
  rw [if_pos (by simpa using h)]

/-- The monolithic per-square update is the composition of the three
boundary blocks, with all flags evaluated once on the post-integration,
pre-clamp state (flattened, rewriting-friendly form). -/
theorem update_square_eq (w : World) (g : ℕ → ℕ) (k : ℕ) (s : Square) :
    update_square w g k s =
      ceiling_step w (onCeiling (integrate_phase w s)) g
        (floor_step w (onFloor (integrate_phase w s)) g
          (wall_step w (onRightWall (integrate_phase w s))
            (onLeftWall (integrate_phase w s)) g k (integrate_phase w s)).2
          (wall_step w (onRightWall (integrate_phase w s))
            (onLeftWall (integrate_phase w s)) g k (integrate_phase w s)).1).2
        (floor_step w (onFloor (integrate_phase w s)) g
          (wall_step w (onRightWall (integrate_phase w s))
            (onLeftWall (integrate_phase w s)) g k (integrate_phase w s)).2
          (wall_step w (onRightWall (integrate_phase w s))
            (onLeftWall (integrate_phase w s)) g k (integrate_phase w s)).1).1 := by
  rfl

theorem integrate_phase_size (w : World) (s : Square) :
    (integrate_phase w s).size = s.size := rfl

theorem integrate_phase_color (w : World) (s : Square) :
    (integrate_phase w s).color = s.color := rfl

theorem update_square_size (w : World) (g : ℕ → ℕ) (k : ℕ) (s : Square) :
    (update_square w g k s).1.size = s.size := by
  rw [update_square_eq, ceiling_step_size, floor_step_size, wall_step_size,
    integrate_phase_size]

theorem update_squares_size_map (w : World) (g : ℕ → ℕ) :
    ∀ (k : ℕ) (l : List Square),
      (update_squares w g k l).1.map Square.size = l.map Square.size
  | _, [] => rfl
  | k, s :: rest => by
    simp only [update_squares, List.map_cons, update_square_size]
    rw [update_squares_size_map w g _ rest]

theorem get_random_int_bounds (low high : ℤ) (r : ℕ) (h : low ≤ high) :
    low ≤ get_random_int low high r ∧ get_random_int low high r ≤ high := by
  unfold get_random_int
  have h1 : 0 < high - low + 1 := by omega
  have h2 : 0 ≤ (r : ℤ) % (high - low + 1) := Int.emod_nonneg _ (by omega)
  have h3 : (r : ℤ) % (high - low + 1) < high - low + 1 := Int.emod_lt_of_pos _ h1
  omega

theorem get_random_velocity_bounds (g : ℕ → ℕ) (k : ℕ) :
    -20 ≤ (get_random_velocity g k).x ∧ (get_random_velocity g k).x ≤ 20 ∧
    -20 ≤ (get_random_velocity g k).y ∧ (get_random_velocity g k).y ≤ 20 := by
  have hx := get_random_int_bounds (-20) 20 (g k) (by norm_num)
  have hy := get_random_int_bounds (-20) 20 (g (k + 1)) (by norm_num)
  refine ⟨?_, ?_, ?_, ?_⟩ <;> simp only [get_random_velocity]
  · exact_mod_cast hx.1
  · exact_mod_cast hx.2
  · exact_mod_cast hy.1
  · exact_mod_cast hy.2

theorem make_square_velocity (g : ℕ → ℕ) (k : ℕ) :
    (make_square g k).velocity = get_random_velocity g k := rfl

theorem make_square_size (g : ℕ → ℕ) (k : ℕ) :
    (make_square g k).size = ⟨100, 100⟩ := rfl

theorem make_square_position (g : ℕ → ℕ) (k : ℕ) :
    (make_square g k).position = ⟨320, 240⟩ := by
  unfold make_square gScreenWidth gScreenHeight
  norm_num

-- Claim theorems -------------------------------------------------------------

/-- Claim C1: one per-frame update of a single body at position `(270, 200)`
with velocity `(0, 0)` (size `100x100`) under the default world parameters
and the 640x480 screen yields velocity `(0, 0.5)` and position
`(270, 200.5)`, with all five boundary tests evaluating to false, so no
wall, floor or ceiling branch is taken. -/
theorem c1_single_frame (c : Color) (g : ℕ → ℕ) (k : ℕ) :
    update_squares gWorld g k [⟨⟨100, 100⟩, ⟨270, 200⟩, ⟨0, 0⟩, c⟩] =
      ([⟨⟨100, 100⟩, ⟨270, 401/2⟩, ⟨0, 1/2⟩, c⟩], k) ∧
    onRightWall (integrate_phase gWorld ⟨⟨100, 100⟩, ⟨270, 200⟩, ⟨0, 0⟩, c⟩) = false ∧
    onLeftWall (integrate_phase gWorld ⟨⟨100, 100⟩, ⟨270, 200⟩, ⟨0, 0⟩, c⟩) = false ∧
    onFloor (integrate_phase gWorld ⟨⟨100, 100⟩, ⟨270, 200⟩, ⟨0, 0⟩, c⟩) = false ∧
    onCeiling (integrate_phase gWorld ⟨⟨100, 100⟩, ⟨270, 200⟩, ⟨0, 0⟩, c⟩) = false := by
  refine ⟨?_, ?_, ?_, ?_, ?_⟩ <;>
    norm_num [update_squares, update_square, integrate_phase, Square.applyGravity,
      Square.applyAirResistance, Square.updatePosition, onRightWall, onLeftWall,
      onFloor, onCeiling, gScreenWidth, gScreenHeight, gWorld]

/-- Claim C5: in every per-frame update the wall, floor and ceiling
conditions are evaluated exactly once, all against the same
post-integration, pre-clamp position, and the three correction blocks are
applied in the fixed order wall, then floor, then ceiling (each may fire
in the same frame). -/
theorem c5_check_order (w : World) (g : ℕ → ℕ) (k : ℕ) (s : Square) :
    update_square w g k s =
      (let s2 := integrate_phase w s
       let wk := wall_step w (onRightWall s2) (onLeftWall s2) g k s2
       let fk := floor_step w (onFloor s2) g wk.2 wk.1
       ceiling_step w (onCeiling s2) g fk.2 fk.1) := by
  rfl

/-- Claim C9: every randomly generated colour has red, green and blue in
`[0, 255]` and alpha exactly `255` (the alpha channel is never drawn, it
keeps the opaque default of `Color{}`); in particular the initial colour
of every freshly constructed body is fully opaque. -/
theorem c9_random_color (g : ℕ → ℕ) (k : ℕ) :
    (get_random_color g k).alpha = 255 ∧
    (get_random_color g k).red ≤ 255 ∧
    (get_random_color g k).green ≤ 255 ∧
    (get_random_color g k).blue ≤ 255 ∧
    (make_square g k).color = get_random_color g (k + 2) := by
  refine ⟨rfl, ?_, ?_, ?_, rfl⟩ <;>
    · simp only [get_random_color, get_random_int]
      omega

/-- Claim C10: when none of the five boundary tests fires on the
post-integration position, the per-frame update is exactly the
integration phase: position and velocity advance, colour and size are
untouched, and no random draw is consumed. -/
theorem c10_no_boundary (w : World) (g : ℕ → ℕ) (k : ℕ) (s : Square)
    (h1 : onRightWall (integrate_phase w s) = false)
    (h2 : onLeftWall (integrate_phase w s) = false)
    (h3 : onFloor (integrate_phase w s) = false)
    (h4 : onCeiling (integrate_phase w s) = false) :
    update_square w g k s = (integrate_phase w s, k) ∧
    (integrate_phase w s).color = s.color ∧
    (integrate_phase w s).size = s.size := by
  rw [update_square_eq, h1, h2, h3, h4]
  exact ⟨rfl, rfl, rfl⟩

/-- Witness for C10: a concrete mid-air body. -/
theorem c10_no_boundary_witness :
    update_square gWorld (fun _ => 0) 0 ⟨⟨100, 100⟩, ⟨300, 100⟩, ⟨1, 1⟩, Color.default⟩ =
      (integrate_phase gWorld ⟨⟨100, 100⟩, ⟨300, 100⟩, ⟨1, 1⟩, Color.default⟩, 0) ∧
    (integrate_phase gWorld ⟨⟨100, 100⟩, ⟨300, 100⟩, ⟨1, 1⟩, Color.default⟩).color =
      (⟨⟨100, 100⟩, ⟨300, 100⟩, ⟨1, 1⟩, Color.default⟩ : Square).color ∧
    (integrate_phase gWorld ⟨⟨100, 100⟩, ⟨300, 100⟩, ⟨1, 1⟩, Color.default⟩).size =
      (⟨⟨100, 100⟩, ⟨300, 100⟩, ⟨1, 1⟩, Color.default⟩ : Square).size :=
  c10_no_boundary gWorld (fun _ => 0) 0
    ⟨⟨100, 100⟩, ⟨300, 100⟩, ⟨1, 1⟩, Color.default⟩
    (by norm_num [onRightWall, integrate_phase, Square.applyGravity,
      Square.applyAirResistance, Square.updatePosition, gScreenWidth, gWorld])
    (by norm_num [onLeftWall, integrate_phase, Square.applyGravity,
      Square.applyAirResistance, Square.updatePosition, gWorld])
    (by norm_num [onFloor, integrate_phase, Square.applyGravity,
      Square.applyAirResistance, Square.updatePosition, gScreenHeight, gWorld])
    (by norm_num [onCeiling, integrate_phase, Square.applyGravity,
      Square.applyAirResistance, Square.updatePosition, gWorld])

/-- Counterexample for C7: when `SDL_Init` succeeds but window creation
fails, `init` still reports success (`1`), the frame loop is entered, and
the process exits with status `0` on a normal quit — not `1`. -/
theorem c7_init_cex :
    init true false true = 1 ∧
    enters_frame_loop true false true = true ∧
    main_exit_code true false true = 0 := by
  decide

/-- Claim C7 (amended): the process exits with status `1` before entering
the frame loop exactly when `SDL_Init` (the video subsystem) fails; the
outcomes of window-surface and rendering-context creation are never
checked, so their failure neither prevents entering the frame loop nor
changes the exit status. -/
theorem c7_init_exit (sdl_ok window_ok renderer_ok : Bool) :
    (init sdl_ok window_ok renderer_ok = 0 ↔ sdl_ok = false) ∧
    (main_exit_code sdl_ok window_ok renderer_ok = 1 ↔ sdl_ok = false) ∧
    (enters_frame_loop sdl_ok window_ok renderer_ok = true ↔ sdl_ok = true) := by
  cases sdl_ok <;> cases window_ok <;> cases renderer_ok <;> decide

theorem floor_step_velocity_x_of (w : World) (fl : Bool) (g : ℕ → ℕ)
    (k : ℕ) (s : Square) (h : fl = true → ¬s.velocity.y ≤ 1/2) :
    (floor_step w fl g k s).1.velocity.x = s.velocity.x := by
  cases fl
  · rfl
  · rw [floor_step_bounce w g k s (not_le.mp (h rfl))]
    simp [Square.setPosY, Square.dampY, Square.setColor]

/-- Claim C3: a body whose post-integration position reaches the floor
(`position.y >= gScreenHeight - size.y`) and whose vertical velocity at
the floor check is at most `0.5` ends the update in the friction branch:
final `velocity.y = 0` and final `velocity.x` is `0.95` times the
horizontal velocity at the floor check (the value the wall block left). -/
theorem c3_floor_friction (w : World) (g : ℕ → ℕ) (k : ℕ) (s : Square)
    (hf : onFloor (integrate_phase w s) = true)
    (hv : (integrate_phase w s).velocity.y ≤ 1/2) :
    (update_square w g k s).1.velocity.y = 0 ∧
    (update_square w g k s).1.velocity.x =
      (19/20) *
        (wall_step w (onRightWall (integrate_phase w s))
          (onLeftWall (integrate_phase w s)) g k (integrate_phase w s)).1.velocity.x := by
  rw [update_square_eq, hf]
  have hwy : (wall_step w (onRightWall (integrate_phase w s))
      (onLeftWall (integrate_phase w s)) g k (integrate_phase w s)).1.velocity.y =
      (integrate_phase w s).velocity.y :=
    wall_step_velocity_y _ _ _ _ _ _
  rw [floor_step_friction _ _ _ _ (by rw [hwy]; exact hv)]
  constructor
  · exact ceiling_step_velocity_y_zero _ _ _ _ _ rfl
  · rw [ceiling_step_velocity_x]
    simp [Square.setVelocity, Square.setPosY, mul_comm]

/-- Witness for C3: a resting body just above the floor threshold. -/
theorem c3_floor_friction_witness :
    (update_square gWorld (fun _ => 0) 0 ⟨⟨100, 100⟩, ⟨270, 380⟩, ⟨0, 0⟩, Color.default⟩).1.velocity.y = 0 ∧
    (update_square gWorld (fun _ => 0) 0 ⟨⟨100, 100⟩, ⟨270, 380⟩, ⟨0, 0⟩, Color.default⟩).1.velocity.x =
      (19/20) *
        (wall_step gWorld
          (onRightWall (integrate_phase gWorld ⟨⟨100, 100⟩, ⟨270, 380⟩, ⟨0, 0⟩, Color.default⟩))
          (onLeftWall (integrate_phase gWorld ⟨⟨100, 100⟩, ⟨270, 380⟩, ⟨0, 0⟩, Color.default⟩))
          (fun _ => 0) 0
          (integrate_phase gWorld ⟨⟨100, 100⟩, ⟨270, 380⟩, ⟨0, 0⟩, Color.default⟩)).1.velocity.x :=
  c3_floor_friction gWorld (fun _ => 0) 0 ⟨⟨100, 100⟩, ⟨270, 380⟩, ⟨0, 0⟩, Color.default⟩
    (by norm_num [onFloor, integrate_phase, Square.applyGravity,
      Square.applyAirResistance, Square.updatePosition, gScreenHeight, gWorld])
    (by norm_num [integrate_phase, Square.applyGravity,
      Square.applyAirResistance, Square.updatePosition, gWorld])

/-- Counterexample for C2: a body at `position.x = 560`, `velocity.x = 5`
that is simultaneously resting on the floor (`position.y = 380`,
`velocity.y = 0`, size `100x100`): the floor friction branch multiplies
the wall-damped horizontal velocity by a further `0.95`, so the final
`velocity.x` is not `-0.9` times the pre-clamp horizontal velocity. -/
theorem c2_wall_clamp_cex :
    (update_square gWorld (fun _ => 0) 0 ⟨⟨100, 100⟩, ⟨560, 380⟩, ⟨5, 0⟩, Color.default⟩).1.velocity.x =
      -(9/10) * (5 * (199/200)) * (19/20) ∧
    (update_square gWorld (fun _ => 0) 0 ⟨⟨100, 100⟩, ⟨560, 380⟩, ⟨5, 0⟩, Color.default⟩).1.velocity.x ≠
      -(9/10) * (5 * (199/200)) := by
  norm_num [update_square, integrate_phase, Square.applyGravity,
    Square.applyAirResistance, Square.updatePosition, Square.setPosX,
    Square.setPosY, Square.setVelocity, Square.setColor, Square.dampX,
    Square.dampY, gWorld, gScreenWidth, gScreenHeight]

theorem wall_step_right (w : World) (g : ℕ → ℕ) (k : ℕ) (s : Square) :
    wall_step w true false g k s =
      (((s.setPosX (gScreenWidth - s.size.x)).dampX w.damping).setColor
        (get_random_color g k), k + 3) := rfl

/-- Claim C2 (amended): with `screenWidth = 640` and `size.x = 100`, a body
at `position.x = 560` with `velocity.x = 5` before the update always ends
it right-clamped with `position.x <= 540`, whatever its vertical state;
and provided the floor friction branch does not fire (the post-integration
position is not on the floor with vertical velocity at most `0.5` at the
floor check), the final horizontal velocity is `-0.9` times the pre-clamp
horizontal velocity (the value right after air resistance). -/
theorem c2_wall_clamp (sy py vy : ℚ) (c : Color) (g : ℕ → ℕ) (k : ℕ) :
    (update_square gWorld g k ⟨⟨100, sy⟩, ⟨560, py⟩, ⟨5, vy⟩, c⟩).1.position.x ≤ 540 ∧
    (¬(onFloor (integrate_phase gWorld ⟨⟨100, sy⟩, ⟨560, py⟩, ⟨5, vy⟩, c⟩) = true ∧
        (integrate_phase gWorld ⟨⟨100, sy⟩, ⟨560, py⟩, ⟨5, vy⟩, c⟩).velocity.y ≤ 1/2) →
      (update_square gWorld g k ⟨⟨100, sy⟩, ⟨560, py⟩, ⟨5, vy⟩, c⟩).1.velocity.x =
        -(9/10) * (integrate_phase gWorld ⟨⟨100, sy⟩, ⟨560, py⟩, ⟨5, vy⟩, c⟩).velocity.x) := by
  have hrw : onRightWall (integrate_phase gWorld ⟨⟨100, sy⟩, ⟨560, py⟩, ⟨5, vy⟩, c⟩) = true := by
    norm_num [onRightWall, integrate_phase, Square.applyGravity,
      Square.applyAirResistance, Square.updatePosition, gScreenWidth, gWorld]
  have hlw : onLeftWall (integrate_phase gWorld ⟨⟨100, sy⟩, ⟨560, py⟩, ⟨5, vy⟩, c⟩) = false := by
    norm_num [onLeftWall, integrate_phase, Square.applyGravity,
      Square.applyAirResistance, Square.updatePosition, gWorld]
  rw [update_square_eq, hrw, hlw, wall_step_right]
  constructor
  · rw [ceiling_step_position_x, floor_step_position_x]
    norm_num [Square.setPosX, Square.dampX, Square.setColor, integrate_phase,
      Square.applyGravity, Square.applyAirResistance, Square.updatePosition,
      gScreenWidth, gWorld]
  · intro hnf
    rw [ceiling_step_velocity_x, floor_step_velocity_x_of]
    · simp [Square.setPosX, Square.dampX, Square.setColor, gWorld, mul_comm]
    · intro hfl hvy
      refine hnf ⟨hfl, ?_⟩
      simpa [Square.setPosX, Square.dampX, Square.setColor] using hvy

/-- Witness for C2 (amended): the same body in mid-air (`position.y = 200`,
`velocity.y = 0`), where no floor contact occurs, discharging the
no-floor-friction hypothesis of the velocity conjunct. -/
theorem c2_wall_clamp_witness :
    (update_square gWorld (fun _ => 0) 0 ⟨⟨100, 100⟩, ⟨560, 200⟩, ⟨5, 0⟩, Color.default⟩).1.position.x ≤ 540 ∧
    (update_square gWorld (fun _ => 0) 0 ⟨⟨100, 100⟩, ⟨560, 200⟩, ⟨5, 0⟩, Color.default⟩).1.velocity.x =
      -(9/10) * (integrate_phase gWorld ⟨⟨100, 100⟩, ⟨560, 200⟩, ⟨5, 0⟩, Color.default⟩).velocity.x :=
  ⟨(c2_wall_clamp 100 200 0 Color.default (fun _ => 0) 0).1,
   (c2_wall_clamp 100 200 0 Color.default (fun _ => 0) 0).2
    (by norm_num [onFloor, integrate_phase, Square.applyGravity,
      Square.applyAirResistance, Square.updatePosition, gScreenHeight, gWorld])⟩

/-- Counterexample for C4: a body taller than the screen (size `100x481`)
resting on the floor at `position = (270, -1)` with zero velocity meets
every hypothesis of the claim (floor contact, strictly inside both walls,
zero velocity), yet the update moves it: the ceiling branch also fires on
the post-integration position and clamps `position.y` to `0`. -/
theorem c4_rest_cex :
    ((⟨⟨100, 481⟩, ⟨270, -1⟩, ⟨0, 0⟩, Color.default⟩ : Square).position.y =
      gScreenHeight - (⟨⟨100, 481⟩, ⟨270, -1⟩, ⟨0, 0⟩, Color.default⟩ : Square).size.y) ∧
    0 < (⟨⟨100, 481⟩, ⟨270, -1⟩, ⟨0, 0⟩, Color.default⟩ : Square).position.x ∧
    (⟨⟨100, 481⟩, ⟨270, -1⟩, ⟨0, 0⟩, Color.default⟩ : Square).position.x <
      gScreenWidth - (⟨⟨100, 481⟩, ⟨270, -1⟩, ⟨0, 0⟩, Color.default⟩ : Square).size.x ∧
    (⟨⟨100, 481⟩, ⟨270, -1⟩, ⟨0, 0⟩, Color.default⟩ : Square).velocity = (⟨0, 0⟩ : Vec2) ∧
    (update_square gWorld (fun _ => 0) 0 ⟨⟨100, 481⟩, ⟨270, -1⟩, ⟨0, 0⟩, Color.default⟩).1.position ≠
      (⟨⟨100, 481⟩, ⟨270, -1⟩, ⟨0, 0⟩, Color.default⟩ : Square).position := by
  norm_num [update_square, integrate_phase, Square.applyGravity,
    Square.applyAirResistance, Square.updatePosition, Square.setPosX,
    Square.setPosY, Square.setVelocity, Square.setColor, Square.dampX,
    Square.dampY, gWorld, gScreenWidth, gScreenHeight, Vec2.mk.injEq]

/-- Claim C4 (amended): a body at rest on the floor
(`position.y = gScreenHeight - size.y`, strictly inside both walls,
`velocity = (0, 0)`) — provided its post-integration position does not
also trigger the ceiling test, i.e. `size.y < gScreenHeight + 0.5` — is
left by the update at the same position with velocity `(0, 0)`: gravity
raises `velocity.y` to exactly `0.5`, the strict `> 0.5` check routes to
the friction branch, and friction zeroes `velocity.y` again. -/
theorem c4_rest_idempotent (s : Square) (g : ℕ → ℕ) (k : ℕ)
    (hy : s.position.y = gScreenHeight - s.size.y)
    (hx0 : 0 < s.position.x)
    (hx1 : s.position.x < gScreenWidth - s.size.x)
    (hv : s.velocity = (⟨0, 0⟩ : Vec2))
    (hsy : s.size.y < gScreenHeight + 1/2) :
    (update_square gWorld g k s).1.position = s.position ∧
    (update_square gWorld g k s).1.velocity = (⟨0, 0⟩ : Vec2) ∧
    (integrate_phase gWorld s).velocity.y = 1/2 := by
  have h2 : integrate_phase gWorld s =
      ⟨s.size, ⟨s.position.x, s.position.y + 1/2⟩, ⟨0, 1/2⟩, s.color⟩ := by
    simp [integrate_phase, Square.applyGravity, Square.applyAirResistance,
      Square.updatePosition, hv, gWorld]
  have hrw : onRightWall (integrate_phase gWorld s) = false := by
    rw [h2]
    simp only [onRightWall, decide_eq_false_iff_not, ge_iff_le, not_le]
    exact hx1
  have hlw : onLeftWall (integrate_phase gWorld s) = false := by
    rw [h2]
    simp only [onLeftWall, decide_eq_false_iff_not, not_le]
    exact hx0
  have hfl : onFloor (integrate_phase gWorld s) = true := by
    rw [h2]
    simp only [onFloor, decide_eq_true_eq, ge_iff_le]
    rw [hy]
    linarith
  have hce : onCeiling (integrate_phase gWorld s) = false := by
    rw [h2]
    simp only [onCeiling, decide_eq_false_iff_not, not_le]
    rw [hy]
    linarith
  rw [update_square_eq, hrw, hlw, hfl, hce, h2, wall_step_skip,
    floor_step_friction _ _ _ _ (by norm_num), ceiling_step_skip]
  refine ⟨?_, ?_, ?_⟩
  · simp only [Square.setPosY, Square.setVelocity]
    rw [← hy]
  · simp [Square.setPosY, Square.setVelocity]
  · simp

/-- Witness for C4 (amended): a normal `100x100` body resting on the
floor at `x = 300`. -/
theorem c4_rest_idempotent_witness :
    (update_square gWorld (fun _ => 0) 0 ⟨⟨100, 100⟩, ⟨300, 380⟩, ⟨0, 0⟩, Color.default⟩).1.position =
      (⟨⟨100, 100⟩, ⟨300, 380⟩, ⟨0, 0⟩, Color.default⟩ : Square).position ∧
    (update_square gWorld (fun _ => 0) 0 ⟨⟨100, 100⟩, ⟨300, 380⟩, ⟨0, 0⟩, Color.default⟩).1.velocity =
      (⟨0, 0⟩ : Vec2) ∧
    (integrate_phase gWorld ⟨⟨100, 100⟩, ⟨300, 380⟩, ⟨0, 0⟩, Color.default⟩).velocity.y = 1/2 :=
  c4_rest_idempotent ⟨⟨100, 100⟩, ⟨300, 380⟩, ⟨0, 0⟩, Color.default⟩ (fun _ => 0) 0
    (by norm_num [gScreenHeight]) (by norm_num)
    (by norm_num [gScreenWidth]) rfl (by norm_num [gScreenHeight])

/-- Claim C6: after a reset the collection is exactly the freshly built
one — independent of the old collection, so no pre-reset body survives —
with exactly 4 bodies, each of size `100x100`, positioned at the screen
centre `(320, 240)`, and with each freshly drawn velocity component in
`[-20, 20]`. -/
theorem c6_reset (old : List Square) (g : ℕ → ℕ) (k : ℕ) :
    reinit_squares old g k = init_squares g k ∧
    (reinit_squares old g k).length = 4 ∧
    ∀ sq ∈ reinit_squares old g k,
      sq.size = (⟨100, 100⟩ : Vec2) ∧ sq.position = (⟨320, 240⟩ : Vec2) ∧
      -20 ≤ sq.velocity.x ∧ sq.velocity.x ≤ 20 ∧
      -20 ≤ sq.velocity.y ∧ sq.velocity.y ≤ 20 := by
  refine ⟨rfl, by simp [reinit_squares, init_squares, gNumSquares], ?_⟩
  intro sq hsq
  simp only [reinit_squares, init_squares, List.mem_map, List.mem_range] at hsq
  obtain ⟨i, hi, rfl⟩ := hsq
  exact ⟨make_square_size g _, make_square_position g _,
    (get_random_velocity_bounds g _).1, (get_random_velocity_bounds g _).2.1,
    (get_random_velocity_bounds g _).2.2.1, (get_random_velocity_bounds g _).2.2.2⟩

/-- Witness for C6: the first body built after a reset from an empty old
collection and the all-zero raw stream. -/
theorem c6_reset_witness :
    (make_square (fun _ => 0) 0).size = (⟨100, 100⟩ : Vec2) ∧
    (make_square (fun _ => 0) 0).position = (⟨320, 240⟩ : Vec2) ∧
    -20 ≤ (make_square (fun _ => 0) 0).velocity.x ∧
    (make_square (fun _ => 0) 0).velocity.x ≤ 20 ∧
    -20 ≤ (make_square (fun _ => 0) 0).velocity.y ∧
    (make_square (fun _ => 0) 0).velocity.y ≤ 20 :=
  (c6_reset [] (fun _ => 0) 0).2.2 (make_square (fun _ => 0) 0)
    (by
      simpa [reinit_squares, init_squares, gNumSquares] using
        List.mem_map_of_mem (fun i => make_square (fun _ => 0) (0 + 5 * i))
          (List.mem_range.mpr (by norm_num : (0 : ℕ) < 4)))

/-- Claim C8: body sizes are never mutated by the physics update (per
square and collection-wide), and every body built by a reset has size
exactly `100x100`, with both components positive; the exposed `setSize`
setter is never reached by these paths. -/
theorem c8_size_invariant :
    (∀ (w : World) (g : ℕ → ℕ) (k : ℕ) (s : Square),
      (update_square w g k s).1.size = s.size) ∧
    (∀ (w : World) (g : ℕ → ℕ) (k : ℕ) (l : List Square),
      (update_squares w g k l).1.map Square.size = l.map Square.size) ∧
    (∀ (old : List Square) (g : ℕ → ℕ) (k : ℕ) (sq : Square),
      sq ∈ reinit_squares old g k →
        sq.size = (⟨100, 100⟩ : Vec2) ∧ 0 < sq.size.x ∧ 0 < sq.size.y) := by
  refine ⟨update_square_size, update_squares_size_map, ?_⟩
  intro old g k sq hsq
  simp only [reinit_squares, init_squares, List.mem_map, List.mem_range] at hsq
  obtain ⟨i, hi, rfl⟩ := hsq
  refine ⟨make_square_size g _, ?_, ?_⟩ <;>
    norm_num [make_square]

/-- Witness for C8: the first body built after a reset from the all-one
raw stream. -/
theorem c8_size_invariant_witness :
    (make_square (fun _ => 1) 0).size = (⟨100, 100⟩ : Vec2) ∧
    0 < (make_square (fun _ => 1) 0).size.x ∧
    0 < (make_square (fun _ => 1) 0).size.y :=
  c8_size_invariant.2.2 [] (fun _ => 1) 0 (make_square (fun _ => 1) 0)
    (by
      simpa [reinit_squares, init_squares, gNumSquares] using
        List.mem_map_of_mem (fun i => make_square (fun _ => 1) (0 + 5 * i))
          (List.mem_range.mpr (by norm_num : (0 : ℕ) < 4)))
